import Mathlib

/-!
Shallow embedding of the `clear_ml` linear-regression crate.

Sources embedded here:
* `src/lib.rs`        — the `Error` enum;
* `src/util.rs`       — `validate_not_empty`, `validate_same_length`;
* `src/loss_functions.rs` — `mean_squared_error`, `_mean_squared_error`,
  `gradient_mse`, `_gradient_mse`;
* `src/models.rs`     — `LinearModel` with `new`, `fit`, `_fit`, `predict`,
  `_predict`.

Modelling conventions:
* `f64` is modelled as `ℚ`; the decimal literals `0.01` and `0.000001` are
  modelled as the exact rationals `1/100` and `1/1000000`.
* `Vec<T>` is `List`; `Result<T, Error>` is `Except Error T`.
* A runtime panic (`unwrap` on an `Err`, which aborts the program) is modelled
  as propagating the underlying `Except.error`.
* Rust's `x.first().unwrap()` appears only after a non-emptiness validation;
  it is modelled by the total `List.headD` with default `[]`.
* Indexing `v[i]` (which panics when out of bounds) is modelled by
  `List.getD _ i 0`, and `v[i] = e` by `List.set`; the call sites only reach
  indices that are in bounds for validated inputs.
* In `models.rs` the training loop reads `gradient_mse(&y_hat, y)`, which does
  not match the three-parameter signature
  `gradient_mse(x, y_hat, y)` declared in `loss_functions.rs`; the only
  well-typed reading of the crate passes the feature matrix `x` as the first
  argument, and that reading is embedded here.
-/

namespace ClearML

/-- `Error` from `src/lib.rs`. -/
inductive Error where
  | DimensionMismatch
  | EmptyVector
deriving DecidableEq, Repr

/-- `validate_not_empty` from `src/util.rs`. -/
def validate_not_empty {α : Type} (x : List α) : Except Error Unit :=
  if x.isEmpty then Except.error Error.EmptyVector else Except.ok ()

/-- `validate_same_length` from `src/util.rs`: `x.len().cmp(&y.len()).is_ne()`. -/
def validate_same_length {α β : Type} (x : List α) (y : List β) : Except Error Unit :=
  if x.length ≠ y.length then Except.error Error.DimensionMismatch else Except.ok ()

/-- `Iterator::try_for_each` over `Except`, used by the validation call sites. -/
def try_for_each {α : Type} (f : α → Except Error Unit) : List α → Except Error Unit
  | [] => Except.ok ()
  | a :: as =>
    match f a with
    | .error e => .error e
    | .ok _ => try_for_each f as

/-- `_mean_squared_error` from `src/loss_functions.rs`.  The parameters are
named exactly as in the source (the first parameter is called `y` even though
the public wrapper passes `y_hat` in that position). -/
def _mean_squared_error (y y_hat : List ℚ) : ℚ :=
  (((y_hat.zip y).map (fun p => (p.1 - p.2) ^ 2)).sum) / (y.length : ℚ)

/-- `mean_squared_error` from `src/loss_functions.rs`. -/
def mean_squared_error (y_hat y : List ℚ) : Except Error ℚ :=
  match validate_not_empty y_hat with
  | .error e => .error e
  | .ok _ =>
    match validate_not_empty y with
    | .error e => .error e
    | .ok _ =>
      match validate_same_length y_hat y with
      | .error e => .error e
      | .ok _ => .ok (_mean_squared_error y_hat y)

/-- The body of the inner loop of `_gradient_mse`:
`gradient[j] += c * x_ij` where `c = 2.0 / n_samples * (y_hat[i] - y[i])`. -/
def grad_update (c : ℚ) (g : List ℚ) (jx : Nat × ℚ) : List ℚ :=
  g.set jx.1 (g.getD jx.1 0 + c * jx.2)

/-- The inner loop of `_gradient_mse`: `for (j, x_ij) in row.iter().enumerate()`. -/
def grad_row (c : ℚ) (g : List ℚ) (row : List ℚ) : List ℚ :=
  row.enum.foldl (grad_update c) g

/-- `_gradient_mse` from `src/loss_functions.rs`.  The outer loop is
`for (i, row) in x.iter().enumerate()`, and after the loop the entry at index
`n_features` is overwritten with the intercept derivative. -/
def _gradient_mse (x : List (List ℚ)) (y_hat y : List ℚ) : List ℚ :=
  let n_samples : ℚ := (x.length : ℚ)
  let n_features : Nat := (x.headD []).length
  let init : List ℚ := List.replicate (n_features + 1) 0
  let grad : List ℚ :=
    x.enum.foldl
      (fun g ir => grad_row (2 / n_samples * (y_hat.getD ir.1 0 - y.getD ir.1 0)) g ir.2)
      init
  grad.set n_features (2 / n_samples * (y_hat.sum - y.sum))

/-- `gradient_mse` from `src/loss_functions.rs`. -/
def gradient_mse (x : List (List ℚ)) (y_hat y : List ℚ) : Except Error (List ℚ) :=
  match validate_not_empty x with
  | .error e => .error e
  | .ok _ =>
    match validate_not_empty y_hat with
    | .error e => .error e
    | .ok _ =>
      match validate_not_empty y with
      | .error e => .error e
      | .ok _ =>
        match validate_same_length x y with
        | .error e => .error e
        | .ok _ =>
          match validate_same_length y_hat y with
          | .error e => .error e
          | .ok _ => .ok (_gradient_mse x y_hat y)

/-- `LinearModel` from `src/models.rs`. -/
structure LinearModel where
  intercept : ℚ
  coefficients : List ℚ
deriving DecidableEq, Repr

/-- `LinearModel::new`. -/
def LinearModel.new : LinearModel :=
  { intercept := 0, coefficients := [] }

/-- `LinearModel::_predict`. -/
def LinearModel._predict (m : LinearModel) (x : List (List ℚ)) : List ℚ :=
  x.map (fun row => ((row.zip m.coefficients).map (fun p => p.1 * p.2)).sum + m.intercept)

/-- `LinearModel::predict`. -/
def LinearModel.predict (m : LinearModel) (x : List (List ℚ)) : Except Error (List ℚ) :=
  match validate_not_empty x with
  | .error e => .error e
  | .ok _ =>
    match try_for_each (fun row => validate_same_length row m.coefficients) x with
    | .error e => .error e
    | .ok _ => .ok (m._predict x)

/-- The `// update coefficients` block of `LinearModel::_fit`:
`self.coefficients = self.coefficients.iter().zip(&gradient).map(|(a, g)| a - learning_rate * g).collect()`.
`zip` truncates to the shorter list, silently dropping the trailing intercept
entry of the gradient, exactly as the Rust `zip` does.  The intercept field is
not touched (the source leaves it as an unresolved TODO). -/
def fit_step (learning_rate : ℚ) (gradient : List ℚ) (m : LinearModel) : LinearModel :=
  { m with coefficients := (m.coefficients.zip gradient).map (fun p => p.1 - learning_rate * p.2) }

/-- The `for _ in 0..max_iter` loop of `LinearModel::_fit`, with the remaining
iteration budget as the first argument.  Each iteration predicts, computes the
loss gradient, breaks if every gradient entry is small in absolute value, and
otherwise updates the coefficients. -/
def fit_loop (x : List (List ℚ)) (y : List ℚ) (learning_rate tol : ℚ) :
    Nat → LinearModel → Except Error LinearModel
  | 0, m => Except.ok m
  | k + 1, m =>
    match m.predict x with
    | .error e => .error e
    | .ok y_hat =>
      match gradient_mse x y_hat y with
      | .error e => .error e
      | .ok gradient =>
        if ∀ g ∈ gradient, |g| < tol then Except.ok m
        else fit_loop x y learning_rate tol k (fit_step learning_rate gradient m)

/-- `LinearModel::_fit`: reset the coefficients to zero, then run the loop. -/
def LinearModel._fit (m : LinearModel) (x : List (List ℚ)) (y : List ℚ)
    (max_iter : Nat) (learning_rate tol : ℚ) : Except Error LinearModel :=
  fit_loop x y learning_rate tol max_iter
    { m with coefficients := List.replicate (x.headD []).length 0 }

/-- `LinearModel::fit` viewed as acting on the mutable borrow `&mut self`:
the result pairs the final state of `self` with the `Result`.  Each `?` on a
validator is an early return that leaves `self` untouched.  A panic inside
`_fit` aborts the program, so no state is observable in that case; the pair
component carries the pre-call state there (that branch is proved unreachable
for inputs that pass validation). -/
def LinearModel.fit_mut (m : LinearModel) (x : List (List ℚ)) (y : List ℚ) :
    LinearModel × Except Error Unit :=
  match validate_not_empty x with
  | .error e => (m, .error e)
  | .ok _ =>
    match validate_not_empty y with
    | .error e => (m, .error e)
    | .ok _ =>
      match validate_same_length x y with
      | .error e => (m, .error e)
      | .ok _ =>
        match try_for_each (fun row => validate_same_length (x.headD []) row) (x.drop 1) with
        | .error e => (m, .error e)
        | .ok _ =>
          match m._fit x y 1000 (1 / 100) (1 / 1000000) with
          | .ok m2 => (m2, .ok ())
          | .error e => (m, .error e)

/-- `LinearModel::fit` as a function from the model to the returned
`Result<&Self, Error>` (the `Ok` case carries the mutated model). -/
def LinearModel.fit (m : LinearModel) (x : List (List ℚ)) (y : List ℚ) :
    Except Error LinearModel :=
  match m.fit_mut x y with
  | (m2, .ok _) => .ok m2
  | (_, .error e) => .error e

/-!
## Helper lemmas

List-access facts, facts about the two validators, success/inversion lemmas
for the public wrappers, and the pointwise characterisation of the gradient
accumulation loops.
-/

theorem getD_set_self (l : List ℚ) (i : Nat) (v : ℚ) :
    (l.set i v).getD i 0 = if i < l.length then v else l.getD i 0 := by
  induction l generalizing i with
  | nil => simp [List.set]
  | cons a l ih =>
    cases i with
    | zero => simp
    | succ j => simpa using ih j

theorem getD_set_ne (l : List ℚ) (i j : Nat) (h : i ≠ j) (v : ℚ) :
    (l.set i v).getD j 0 = l.getD j 0 := by
  induction l generalizing i j with
  | nil => simp [List.set]
  | cons a l ih =>
    cases i with
    | zero =>
      cases j with
      | zero => exact absurd rfl h
      | succ j2 => simp
    | succ i2 =>
      cases j with
      | zero => simp
      | succ j2 => simpa using ih i2 j2 (by omega)

theorem getD_replicate (n j : Nat) : (List.replicate n (0:ℚ)).getD j 0 = 0 := by
  induction n generalizing j with
  | zero => simp
  | succ n ih =>
    cases j with
    | zero => simp [List.replicate]
    | succ j2 => simp only [List.replicate, List.getD_cons_succ]; exact ih j2

theorem getD_zip_map_sub (c g : List ℚ) (lr : ℚ) (j : Nat)
    (h1 : j < c.length) (h2 : j < g.length) :
    ((c.zip g).map (fun p => p.1 - lr * p.2)).getD j 0
      = c.getD j 0 - lr * g.getD j 0 := by
  induction c generalizing g j with
  | nil => simp at h1
  | cons a c ih =>
    cases g with
    | nil => simp at h2
    | cons b g =>
      cases j with
      | zero => simp
      | succ j2 =>
        simpa using ih g j2 (by simpa using h1) (by simpa using h2)

theorem validate_not_empty_ok {α : Type} (x : List α) (h : x ≠ []) :
    validate_not_empty x = .ok () := by
  simp [validate_not_empty, h]

theorem validate_same_length_ok {α β : Type} (x : List α) (y : List β)
    (h : x.length = y.length) : validate_same_length x y = .ok () := by
  simp [validate_same_length, h]

theorem validate_same_length_err {α β : Type} (x : List α) (y : List β)
    (h : x.length ≠ y.length) : validate_same_length x y = .error .DimensionMismatch := by
  simp [validate_same_length, h]

theorem validate_same_length_cases {α β : Type} (x : List α) (y : List β) :
    validate_same_length x y = .ok () ∨ validate_same_length x y = .error .DimensionMismatch := by
  by_cases h : x.length = y.length
  · exact Or.inl (validate_same_length_ok x y h)
  · exact Or.inr (validate_same_length_err x y h)

theorem try_for_each_ok {α : Type} (f : α → Except Error Unit) (l : List α)
    (h : ∀ a ∈ l, f a = .ok ()) : try_for_each f l = .ok () := by
  induction l with
  | nil => rfl
  | cons a as ih =>
    have ha : f a = .ok () := h a (by simp)
    simp [try_for_each, ha]
    exact ih (fun b hb => h b (by simp [hb]))

theorem try_for_each_dm {α : Type} (f : α → Except Error Unit)
    (hall : ∀ a, f a = .ok () ∨ f a = .error .DimensionMismatch) (l : List α)
    (hex : ∃ a ∈ l, f a = .error Error.DimensionMismatch) :
    try_for_each f l = .error .DimensionMismatch := by
  induction l with
  | nil => simp at hex
  | cons a as ih =>
    rcases hall a with ha | ha
    · rcases hex with ⟨b, hb, hbe⟩
      rcases List.mem_cons.mp hb with rfl | hb2
      · rw [ha] at hbe; exact absurd hbe (by simp)
      · simp [try_for_each, ha]
        exact ih ⟨b, hb2, hbe⟩
    · simp [try_for_each, ha]

theorem grad_update_length (c : ℚ) (g : List ℚ) (jx : Nat × ℚ) :
    (grad_update c g jx).length = g.length := List.length_set ..

theorem foldl_grad_update_length (c : ℚ) (row : List ℚ) : ∀ (k : Nat) (g : List ℚ),
    ((List.enumFrom k row).foldl (grad_update c) g).length = g.length := by
  induction row with
  | nil => intro k g; rfl
  | cons a row ih =>
    intro k g
    have hfold : (List.enumFrom k (a :: row)).foldl (grad_update c) g
        = (List.enumFrom (k + 1) row).foldl (grad_update c) (grad_update c g (k, a)) := rfl
    rw [hfold, ih, grad_update_length]

theorem foldl_grad_update_getD (c : ℚ) (row : List ℚ) : ∀ (k : Nat) (g : List ℚ) (j : Nat),
    ((List.enumFrom k row).foldl (grad_update c) g).getD j 0 =
      if k ≤ j ∧ j < k + row.length ∧ j < g.length
      then g.getD j 0 + c * row.getD (j - k) 0
      else g.getD j 0 := by
  induction row with
  | nil =>
    intro k g j
    rw [if_neg (by simp only [List.length_nil]; omega)]
    rfl
  | cons a row ih =>
    intro k g j
    have hfold : (List.enumFrom k (a :: row)).foldl (grad_update c) g
        = (List.enumFrom (k + 1) row).foldl (grad_update c) (grad_update c g (k, a)) := rfl
    rw [hfold, ih, grad_update_length]
    by_cases hkj : k = j
    · subst hkj
      rw [if_neg (by omega)]
      show (g.set k (g.getD k 0 + c * a)).getD k 0 = _
      rw [getD_set_self]
      by_cases hk : k < g.length
      · rw [if_pos hk, if_pos ⟨le_refl k, by simp, hk⟩]
        simp
      · rw [if_neg hk, if_neg (by intro h; exact hk h.2.2)]
    · have hset : (grad_update c g (k, a)).getD j 0 = g.getD j 0 := getD_set_ne g k j hkj _
      rw [hset]
      by_cases hc : k + 1 ≤ j ∧ j < k + 1 + row.length ∧ j < g.length
      · rw [if_pos hc, if_pos (by obtain ⟨h1, h2, h3⟩ := hc; exact ⟨by omega, by simp; omega, h3⟩)]
        have hj : j - k = (j - (k + 1)) + 1 := by omega
        rw [hj]
        rfl
      · rw [if_neg hc, if_neg (by
          intro h
          obtain ⟨h1, h2, h3⟩ := h
          simp at h2
          exact hc ⟨by omega, by omega, h3⟩)]

theorem grad_row_length (c : ℚ) (g : List ℚ) (row : List ℚ) :
    (grad_row c g row).length = g.length := foldl_grad_update_length c row 0 g

theorem grad_row_getD (c : ℚ) (g : List ℚ) (row : List ℚ) (j : Nat)
    (hrow : j < row.length) (hg : j < g.length) :
    (grad_row c g row).getD j 0 = g.getD j 0 + c * row.getD j 0 := by
  have h := foldl_grad_update_getD c row 0 g j
  rw [grad_row, List.enum] at *
  rw [h, if_pos ⟨Nat.zero_le j, by omega, hg⟩]
  simp

theorem outer_fold_length (y_hat y : List ℚ) (n : ℚ) (x : List (List ℚ)) :
    ∀ (k : Nat) (g : List ℚ),
    ((List.enumFrom k x).foldl
        (fun g ir => grad_row (2 / n * (y_hat.getD ir.1 0 - y.getD ir.1 0)) g ir.2) g).length
      = g.length := by
  induction x with
  | nil => intro k g; rfl
  | cons row x ih =>
    intro k g
    have hfold : (List.enumFrom k (row :: x)).foldl
        (fun g ir => grad_row (2 / n * (y_hat.getD ir.1 0 - y.getD ir.1 0)) g ir.2) g
      = (List.enumFrom (k + 1) x).foldl
          (fun g ir => grad_row (2 / n * (y_hat.getD ir.1 0 - y.getD ir.1 0)) g ir.2)
          (grad_row (2 / n * (y_hat.getD k 0 - y.getD k 0)) g row) := rfl
    rw [hfold, ih, grad_row_length]

theorem outer_fold_getD (y_hat y : List ℚ) (n : ℚ) (nf : Nat) (x : List (List ℚ))
    (hrows : ∀ row ∈ x, row.length = nf) (j : Nat) (hj : j < nf) :
    ∀ (k : Nat) (g : List ℚ), j < g.length →
    ((List.enumFrom k x).foldl
        (fun g ir => grad_row (2 / n * (y_hat.getD ir.1 0 - y.getD ir.1 0)) g ir.2) g).getD j 0
      = g.getD j 0
        + ∑ i ∈ Finset.range x.length,
            2 / n * (y_hat.getD (k + i) 0 - y.getD (k + i) 0) * ((x.getD i []).getD j 0) := by
  induction x with
  | nil => intro k g _; simp
  | cons row x ih =>
    intro k g hg
    have hfold : (List.enumFrom k (row :: x)).foldl
        (fun g ir => grad_row (2 / n * (y_hat.getD ir.1 0 - y.getD ir.1 0)) g ir.2) g
      = (List.enumFrom (k + 1) x).foldl
          (fun g ir => grad_row (2 / n * (y_hat.getD ir.1 0 - y.getD ir.1 0)) g ir.2)
          (grad_row (2 / n * (y_hat.getD k 0 - y.getD k 0)) g row) := rfl
    have hrow : row.length = nf := hrows row (by simp)
    have hg1 : j < (grad_row (2 / n * (y_hat.getD k 0 - y.getD k 0)) g row).length := by
      rw [grad_row_length]; exact hg
    rw [hfold, ih (fun r hr => hrows r (by simp [hr])) (k + 1) _ hg1,
      grad_row_getD _ _ _ _ (by omega) hg]
    rw [List.length_cons, Finset.sum_range_succ']
    have hsum : ∑ i ∈ Finset.range x.length,
        2 / n * (y_hat.getD (k + (i + 1)) 0 - y.getD (k + (i + 1)) 0)
          * (((row :: x).getD (i + 1) []).getD j 0)
      = ∑ i ∈ Finset.range x.length,
        2 / n * (y_hat.getD (k + 1 + i) 0 - y.getD (k + 1 + i) 0) * ((x.getD i []).getD j 0) := by
      refine Finset.sum_congr rfl (fun i _ => ?_)
      have hki : k + (i + 1) = k + 1 + i := by omega
      rw [hki]
      rfl
    rw [hsum]
    have hzero : ((row :: x).getD 0 []).getD j 0 = row.getD j 0 := rfl
    have hk0 : k + 0 = k := by omega
    rw [hzero, hk0]
    ring

theorem _gradient_mse_eq (x : List (List ℚ)) (y_hat y : List ℚ) :
    _gradient_mse x y_hat y =
      ((List.enumFrom 0 x).foldl
          (fun g ir => grad_row (2 / (x.length : ℚ) * (y_hat.getD ir.1 0 - y.getD ir.1 0)) g ir.2)
          (List.replicate ((x.headD []).length + 1) 0)).set
        (x.headD []).length (2 / (x.length : ℚ) * (y_hat.sum - y.sum)) := rfl

theorem _gradient_mse_length (x : List (List ℚ)) (y_hat y : List ℚ) :
    (_gradient_mse x y_hat y).length = (x.headD []).length + 1 := by
  rw [_gradient_mse_eq, List.length_set, outer_fold_length, List.length_replicate]

theorem _gradient_mse_getD (x : List (List ℚ)) (y_hat y : List ℚ)
    (hrows : ∀ row ∈ x, row.length = (x.headD []).length)
    (j : Nat) (hj : j < (x.headD []).length) :
    (_gradient_mse x y_hat y).getD j 0
      = 2 / (x.length : ℚ)
        * ∑ i ∈ Finset.range x.length,
            (y_hat.getD i 0 - y.getD i 0) * ((x.getD i []).getD j 0) := by
  rw [_gradient_mse_eq, getD_set_ne _ _ _ (by omega),
    outer_fold_getD y_hat y (x.length : ℚ) ((x.headD []).length) x hrows j hj 0 _
      (by rw [List.length_replicate]; omega),
    getD_replicate, zero_add]
  rw [Finset.mul_sum]
  refine Finset.sum_congr rfl (fun i _ => ?_)
  rw [Nat.zero_add]
  ring

theorem _gradient_mse_last (x : List (List ℚ)) (y_hat y : List ℚ) :
    (_gradient_mse x y_hat y).getD (x.headD []).length 0
      = 2 / (x.length : ℚ) * (y_hat.sum - y.sum) := by
  rw [_gradient_mse_eq, getD_set_self,
    if_pos (by rw [outer_fold_length, List.length_replicate]; omega)]

theorem mean_squared_error_ok (y_hat y : List ℚ) (h1 : y_hat ≠ []) (h2 : y ≠ [])
    (h3 : y_hat.length = y.length) :
    mean_squared_error y_hat y = .ok (_mean_squared_error y_hat y) := by
  rw [mean_squared_error, validate_not_empty_ok _ h1, validate_not_empty_ok _ h2,
    validate_same_length_ok _ _ h3]

theorem mean_squared_error_ok_inv (y_hat y : List ℚ) (v : ℚ)
    (h : mean_squared_error y_hat y = .ok v) : v = _mean_squared_error y_hat y := by
  rw [mean_squared_error] at h
  cases hx : validate_not_empty y_hat with
  | error e => rw [hx] at h; exact absurd h (by simp)
  | ok u =>
    rw [hx] at h
    cases hy : validate_not_empty y with
    | error e => rw [hy] at h; exact absurd h (by simp)
    | ok u2 =>
      rw [hy] at h
      cases hl : validate_same_length y_hat y with
      | error e => rw [hl] at h; exact absurd h (by simp)
      | ok u3 =>
        rw [hl] at h
        exact (Except.ok.injEq .. ▸ (h.symm)) ▸ rfl

theorem gradient_mse_ok (x : List (List ℚ)) (y_hat y : List ℚ)
    (h1 : x ≠ []) (h2 : y_hat ≠ []) (h3 : y ≠ [])
    (h4 : x.length = y.length) (h5 : y_hat.length = y.length) :
    gradient_mse x y_hat y = .ok (_gradient_mse x y_hat y) := by
  rw [gradient_mse, validate_not_empty_ok _ h1, validate_not_empty_ok _ h2,
    validate_not_empty_ok _ h3, validate_same_length_ok _ _ h4, validate_same_length_ok _ _ h5]

theorem gradient_mse_ok_inv (x : List (List ℚ)) (y_hat y : List ℚ) (g : List ℚ)
    (h : gradient_mse x y_hat y = .ok g) : g = _gradient_mse x y_hat y := by
  rw [gradient_mse] at h
  cases h1 : validate_not_empty x with
  | error e => rw [h1] at h; exact absurd h (by simp)
  | ok u1 =>
    rw [h1] at h
    cases h2 : validate_not_empty y_hat with
    | error e => rw [h2] at h; exact absurd h (by simp)
    | ok u2 =>
      rw [h2] at h
      cases h3 : validate_not_empty y with
      | error e => rw [h3] at h; exact absurd h (by simp)
      | ok u3 =>
        rw [h3] at h
        cases h4 : validate_same_length x y with
        | error e => rw [h4] at h; exact absurd h (by simp)
        | ok u4 =>
          rw [h4] at h
          cases h5 : validate_same_length y_hat y with
          | error e => rw [h5] at h; exact absurd h (by simp)
          | ok u5 =>
            rw [h5] at h
            simpa using h.symm

theorem _predict_length (m : LinearModel) (x : List (List ℚ)) :
    (m._predict x).length = x.length := List.length_map ..

theorem predict_ok (m : LinearModel) (x : List (List ℚ)) (hx : x ≠ [])
    (hrows : ∀ row ∈ x, row.length = m.coefficients.length) :
    m.predict x = .ok (m._predict x) := by
  rw [LinearModel.predict, validate_not_empty_ok _ hx,
    try_for_each_ok _ _ (fun row hr => validate_same_length_ok _ _ (hrows row hr))]

theorem fit_step_length (lr : ℚ) (gradient : List ℚ) (m : LinearModel)
    (h : m.coefficients.length ≤ gradient.length) :
    (fit_step lr gradient m).coefficients.length = m.coefficients.length := by
  show ((m.coefficients.zip gradient).map (fun p => p.1 - lr * p.2)).length
    = m.coefficients.length
  rw [List.length_map, List.length_zip]
  omega

theorem fit_step_intercept (lr : ℚ) (gradient : List ℚ) (m : LinearModel) :
    (fit_step lr gradient m).intercept = m.intercept := rfl

theorem fit_loop_succ (x : List (List ℚ)) (y : List ℚ) (lr tol : ℚ) (k : Nat)
    (m : LinearModel) (hx : x ≠ [])
    (hrows : ∀ row ∈ x, row.length = (x.headD []).length)
    (hy : y.length = x.length)
    (hc : m.coefficients.length = (x.headD []).length) :
    fit_loop x y lr tol (k + 1) m =
      if ∀ g ∈ _gradient_mse x (m._predict x) y, |g| < tol then Except.ok m
      else fit_loop x y lr tol k (fit_step lr (_gradient_mse x (m._predict x) y) m) := by
  have hxlen : 0 < x.length := List.length_pos.mpr hx
  have hp : m.predict x = .ok (m._predict x) :=
    predict_ok m x hx (fun row hr => by rw [hrows row hr, hc])
  have hyh : (m._predict x) ≠ [] := by
    refine List.length_pos.mp ?_
    rw [_predict_length]
    omega
  have hynil : y ≠ [] := by
    refine List.length_pos.mp ?_
    omega
  have hg : gradient_mse x (m._predict x) y = .ok (_gradient_mse x (m._predict x) y) :=
    gradient_mse_ok x _ y hx hyh hynil (by omega) (by rw [_predict_length]; omega)
  simp only [fit_loop, hp, hg]

theorem fit_loop_ok (x : List (List ℚ)) (y : List ℚ) (lr tol : ℚ) (hx : x ≠ [])
    (hrows : ∀ row ∈ x, row.length = (x.headD []).length)
    (hy : y.length = x.length) :
    ∀ (k : Nat) (m : LinearModel), m.coefficients.length = (x.headD []).length →
      ∃ m2, fit_loop x y lr tol k m = .ok m2 := by
  intro k
  induction k with
  | zero => intro m _; exact ⟨m, rfl⟩
  | succ k ih =>
    intro m hc
    rw [fit_loop_succ x y lr tol k m hx hrows hy hc]
    by_cases hsmall : ∀ g ∈ _gradient_mse x (m._predict x) y, |g| < tol
    · rw [if_pos hsmall]; exact ⟨m, rfl⟩
    · rw [if_neg hsmall]
      refine ih _ ?_
      rw [fit_step_length _ _ _ (by rw [_gradient_mse_length, hc]; omega), hc]

theorem fit_loop_length (x : List (List ℚ)) (y : List ℚ) (lr tol : ℚ) :
    ∀ (k : Nat) (m m2 : LinearModel), m.coefficients.length = (x.headD []).length →
      fit_loop x y lr tol k m = .ok m2 → m2.coefficients.length = (x.headD []).length := by
  intro k
  induction k with
  | zero =>
    intro m m2 hc h
    cases h
    exact hc
  | succ k ih =>
    intro m m2 hc h
    rw [fit_loop] at h
    cases hp : m.predict x with
    | error e => simp only [hp] at h; exact absurd h (by simp)
    | ok y_hat =>
      simp only [hp] at h
      cases hg : gradient_mse x y_hat y with
      | error e => simp only [hg] at h; exact absurd h (by simp)
      | ok gradient =>
        simp only [hg] at h
        have hglen : gradient.length = (x.headD []).length + 1 := by
          rw [gradient_mse_ok_inv x y_hat y gradient hg, _gradient_mse_length]
        by_cases hsmall : ∀ g ∈ gradient, |g| < tol
        · rw [if_pos hsmall] at h
          cases h
          exact hc
        · rw [if_neg hsmall] at h
          refine ih _ m2 ?_ h
          rw [fit_step_length _ _ _ (by omega), hc]

theorem fit_loop_intercept (x : List (List ℚ)) (y : List ℚ) (lr tol : ℚ) :
    ∀ (k : Nat) (m m2 : LinearModel),
      fit_loop x y lr tol k m = .ok m2 → m2.intercept = m.intercept := by
  intro k
  induction k with
  | zero =>
    intro m m2 h
    cases h
    rfl
  | succ k ih =>
    intro m m2 h
    rw [fit_loop] at h
    cases hp : m.predict x with
    | error e => simp only [hp] at h; exact absurd h (by simp)
    | ok y_hat =>
      simp only [hp] at h
      cases hg : gradient_mse x y_hat y with
      | error e => simp only [hg] at h; exact absurd h (by simp)
      | ok gradient =>
        simp only [hg] at h
        by_cases hsmall : ∀ g ∈ gradient, |g| < tol
        · rw [if_pos hsmall] at h
          cases h
          rfl
        · rw [if_neg hsmall] at h
          rw [ih _ m2 h, fit_step_intercept]

theorem fit_mut_valid (m : LinearModel) (x : List (List ℚ)) (y : List ℚ)
    (hx : x ≠ []) (hy : y.length = x.length)
    (hrows : ∀ row ∈ x, row.length = (x.headD []).length) :
    m.fit_mut x y =
      match m._fit x y 1000 (1 / 100) (1 / 1000000) with
      | .ok m2 => (m2, .ok ())
      | .error e => (m, .error e) := by
  have hynil : y ≠ [] := by
    refine List.length_pos.mp ?_
    have := List.length_pos.mpr hx
    omega
  rw [LinearModel.fit_mut, validate_not_empty_ok _ hx, validate_not_empty_ok _ hynil,
    validate_same_length_ok _ _ hy.symm,
    try_for_each_ok _ _ (fun row hr => validate_same_length_ok _ _
      (by rw [hrows row (List.drop_subset 1 x hr)]))]

theorem fit_ok (m : LinearModel) (x : List (List ℚ)) (y : List ℚ)
    (hx : x ≠ []) (hy : y.length = x.length)
    (hrows : ∀ row ∈ x, row.length = (x.headD []).length) :
    ∃ m2, m.fit x y = .ok m2 ∧ m.fit_mut x y = (m2, .ok ()) := by
  obtain ⟨m2, hm2⟩ := fit_loop_ok x y (1 / 100) (1 / 1000000) hx hrows hy 1000
    { m with coefficients := List.replicate (x.headD []).length 0 }
    (by simp)
  have hfit : m._fit x y 1000 (1 / 100) (1 / 1000000) = .ok m2 := hm2
  have hmut : m.fit_mut x y = (m2, .ok ()) := by
    rw [fit_mut_valid m x y hx hy hrows, hfit]
  exact ⟨m2, by rw [LinearModel.fit, hmut], hmut⟩

theorem fit_mut_ok_inv (m : LinearModel) (x : List (List ℚ)) (y : List ℚ)
    (m2 : LinearModel) (u : Unit) (h : m.fit_mut x y = (m2, .ok u)) :
    m._fit x y 1000 (1 / 100) (1 / 1000000) = .ok m2 := by
  rw [LinearModel.fit_mut] at h
  cases h1 : validate_not_empty x with
  | error e => simp only [h1] at h; exact absurd (congrArg Prod.snd h) (by simp)
  | ok u1 =>
    simp only [h1] at h
    cases h2 : validate_not_empty y with
    | error e => simp only [h2] at h; exact absurd (congrArg Prod.snd h) (by simp)
    | ok u2 =>
      simp only [h2] at h
      cases h3 : validate_same_length x y with
      | error e => simp only [h3] at h; exact absurd (congrArg Prod.snd h) (by simp)
      | ok u3 =>
        simp only [h3] at h
        cases h4 : try_for_each (fun row => validate_same_length (x.headD []) row) (x.drop 1) with
        | error e => simp only [h4] at h; exact absurd (congrArg Prod.snd h) (by simp)
        | ok u4 =>
          simp only [h4] at h
          cases h5 : m._fit x y 1000 (1 / 100) (1 / 1000000) with
          | error e => simp only [h5] at h; exact absurd (congrArg Prod.snd h) (by simp)
          | ok m3 =>
            simp only [h5] at h
            have hm : m3 = m2 := congrArg Prod.fst h
            rw [← hm]

theorem fit_ok_inv (m : LinearModel) (x : List (List ℚ)) (y : List ℚ)
    (m2 : LinearModel) (h : m.fit x y = .ok m2) :
    m._fit x y 1000 (1 / 100) (1 / 1000000) = .ok m2 := by
  rw [LinearModel.fit] at h
  cases hmut : m.fit_mut x y with
  | mk m3 r =>
    rw [hmut] at h
    cases r with
    | error e => simp at h
    | ok u =>
      simp only at h
      have hm : m3 = m2 := by simpa using h
      rw [hm] at hmut
      exact fit_mut_ok_inv m x y m2 u hmut

theorem fit_mut_fst_intercept (m : LinearModel) (x : List (List ℚ)) (y : List ℚ) :
    (m.fit_mut x y).1.intercept = m.intercept := by
  rw [LinearModel.fit_mut]
  cases h1 : validate_not_empty x with
  | error e => rfl
  | ok u1 =>
    cases h2 : validate_not_empty y with
    | error e => rfl
    | ok u2 =>
      cases h3 : validate_same_length x y with
      | error e => rfl
      | ok u3 =>
        cases h4 : try_for_each (fun row => validate_same_length (x.headD []) row) (x.drop 1) with
        | error e => rfl
        | ok u4 =>
          cases h5 : m._fit x y 1000 (1 / 100) (1 / 1000000) with
          | error e => rfl
          | ok m2 =>
            show m2.intercept = m.intercept
            have := fit_loop_intercept x y (1 / 100) (1 / 1000000) 1000 _ m2 h5
            simpa using this

theorem fit_mut_empty (m : LinearModel) (y : List ℚ) :
    m.fit_mut [] y = (m, .error Error.EmptyVector) := rfl

theorem fit_empty (m : LinearModel) (y : List ℚ) :
    m.fit [] y = .error Error.EmptyVector := rfl

theorem predict_empty (m : LinearModel) :
    m.predict [] = .error Error.EmptyVector := rfl

theorem mean_squared_error_empty (y : List ℚ) :
    mean_squared_error [] y = .error Error.EmptyVector := rfl

theorem fit_mut_len_mismatch (m : LinearModel) (x : List (List ℚ)) (y : List ℚ)
    (hx : x ≠ []) (hy : y ≠ []) (hlen : x.length ≠ y.length) :
    m.fit_mut x y = (m, .error Error.DimensionMismatch) := by
  rw [LinearModel.fit_mut, validate_not_empty_ok _ hx, validate_not_empty_ok _ hy,
    validate_same_length_err _ _ hlen]

theorem fit_mut_ragged (m : LinearModel) (x : List (List ℚ)) (y : List ℚ)
    (hx : x ≠ []) (hy : y ≠ []) (hlen : x.length = y.length)
    (hragged : ∃ row ∈ x.drop 1, row.length ≠ (x.headD []).length) :
    m.fit_mut x y = (m, .error Error.DimensionMismatch) := by
  rw [LinearModel.fit_mut, validate_not_empty_ok _ hx, validate_not_empty_ok _ hy,
    validate_same_length_ok _ _ hlen,
    try_for_each_dm _ (fun row => validate_same_length_cases (x.headD []) row) _
      (by
        obtain ⟨row, hr, hne⟩ := hragged
        exact ⟨row, hr, validate_same_length_err _ _ (fun hh => hne hh.symm)⟩)]

theorem predict_row_mismatch (m : LinearModel) (x : List (List ℚ)) (hx : x ≠ [])
    (hrow : ∃ row ∈ x, row.length ≠ m.coefficients.length) :
    m.predict x = .error Error.DimensionMismatch := by
  rw [LinearModel.predict, validate_not_empty_ok _ hx,
    try_for_each_dm _ (fun row => validate_same_length_cases row m.coefficients) _
      (by
        obtain ⟨row, hr, hne⟩ := hrow
        exact ⟨row, hr, validate_same_length_err _ _ hne⟩)]

theorem fit_mut_err_frame (m : LinearModel) (x : List (List ℚ)) (y : List ℚ)
    (e : Error) (h : (m.fit_mut x y).2 = .error e) : (m.fit_mut x y).1 = m := by
  rw [LinearModel.fit_mut] at *
  cases h1 : validate_not_empty x with
  | error e2 => rfl
  | ok u1 =>
    cases h2 : validate_not_empty y with
    | error e2 => rfl
    | ok u2 =>
      cases h3 : validate_same_length x y with
      | error e2 => rfl
      | ok u3 =>
        cases h4 : try_for_each (fun row => validate_same_length (x.headD []) row) (x.drop 1) with
        | error e2 => rfl
        | ok u4 =>
          cases h5 : m._fit x y 1000 (1 / 100) (1 / 1000000) with
          | error e2 => rfl
          | ok m2 => simp only [h1, h2, h3, h4, h5] at h; simp at h

theorem mse_core_nonneg (y y_hat : List ℚ) :
    0 ≤ _mean_squared_error y y_hat := by
  rw [_mean_squared_error]
  refine div_nonneg ?_ (by positivity)
  refine List.sum_nonneg ?_
  intro v hv
  rw [List.mem_map] at hv
  obtain ⟨p, _, hp⟩ := hv
  rw [← hp]
  positivity

theorem zip_map_sq_comm (a b : List ℚ) :
    (a.zip b).map (fun p => (p.1 - p.2) ^ 2) = (b.zip a).map (fun p => (p.1 - p.2) ^ 2) := by
  induction a generalizing b with
  | nil => cases b <;> rfl
  | cons u a ih =>
    cases b with
    | nil => rfl
    | cons v b =>
      simp only [List.zip_cons_cons, List.map_cons]
      rw [ih]
      congr 1
      ring

theorem mse_core_comm (a b : List ℚ) (h : a.length = b.length) :
    _mean_squared_error a b = _mean_squared_error b a := by
  rw [_mean_squared_error, _mean_squared_error, zip_map_sq_comm, h]

theorem mse_eval_example : mean_squared_error [2, 3, 4] [1, 2, 3] = .ok 1 := by
  norm_num [mean_squared_error, validate_not_empty, validate_same_length, _mean_squared_error]

theorem gradient_mse_eval_example :
    gradient_mse [[1], [1], [1]] [2, 3, 4] [1, 2, 3] = .ok [2, 2] := by
  norm_num [gradient_mse, _gradient_mse, grad_row, grad_update, List.enum, List.enumFrom,
    List.set, List.replicate, validate_not_empty, validate_same_length]

theorem gradient_mse_eval_wide :
    gradient_mse [[1, 2]] [5] [3] = .ok [4, 8, 4] := by
  norm_num [gradient_mse, _gradient_mse, grad_row, grad_update, List.enum, List.enumFrom,
    List.set, List.replicate, validate_not_empty, validate_same_length]

theorem fit_eval_example :
    LinearModel.new.fit [[1]] [0] = .ok { intercept := 0, coefficients := [0] } := by
  have hpred : (⟨0, [0]⟩ : LinearModel)._predict [[1]] = [0] := by
    norm_num [LinearModel._predict]
  have hgrad : _gradient_mse [[1]] [0] [0] = [0, 0] := by
    norm_num [_gradient_mse, grad_row, grad_update, List.enum, List.enumFrom, List.set,
      List.replicate]
  have hsmall : ∀ g ∈ _gradient_mse [[1]] ((⟨0, [0]⟩ : LinearModel)._predict [[1]]) [0],
      |g| < 1 / 1000000 := by
    rw [hpred, hgrad]
    intro g hg
    rcases List.mem_cons.mp hg with rfl | hg2
    · norm_num
    · rcases List.mem_cons.mp hg2 with rfl | hg3
      · norm_num
      · simp at hg3
  have hloop : fit_loop [[1]] [0] (1 / 100) (1 / 1000000) 1000 ⟨0, [0]⟩
      = .ok ⟨0, [0]⟩ := by
    have h1000 : (1000 : Nat) = 999 + 1 := by norm_num
    rw [h1000, fit_loop_succ [[1]] [0] (1 / 100) (1 / 1000000) 999 ⟨0, [0]⟩ (by simp)
      (by intro row hr; simp at hr; simp [hr]) (by simp) (by simp), if_pos hsmall]
  have hfit : (LinearModel.new)._fit [[1]] [0] 1000 (1 / 100) (1 / 1000000)
      = .ok ⟨0, [0]⟩ := by
    show fit_loop [[1]] [0] (1 / 100) (1 / 1000000) 1000
      { LinearModel.new with coefficients := List.replicate 1 0 } = .ok ⟨0, [0]⟩
    have hm0 : ({ LinearModel.new with coefficients := List.replicate 1 0 } : LinearModel)
        = ⟨0, [0]⟩ := by
      simp [LinearModel.new, List.replicate]
    rw [hm0, hloop]
  have hmut : LinearModel.new.fit_mut [[1]] [0] = (⟨0, [0]⟩, .ok ()) := by
    rw [fit_mut_valid LinearModel.new [[1]] [0] (by simp) (by simp)
      (by intro row hr; simp at hr; simp [hr]), hfit]
  rw [LinearModel.fit, hmut]

/-!
## Claim theorems
-/

/-- Claim C1: for every call to `fit` with a non-empty feature matrix `x` whose
rows all have the first row's length and a target `y` of the same length as
`x`, each iteration of the training loop that does not stop early updates
every coefficient `j` by
`coefficients_j <- coefficients_j - 0.01 * parameter_gradient_j`, where
`parameter_gradient_j = 2/n * ∑ i, (predicted_i - y_i) * x_ij` is recomputed
from `x`, the current predictions and `y` at that iteration.  The first
conjunct exhibits the loop step taken from any loop state reachable in `fit`
(coefficient count equal to the feature count); the second computes every
updated coefficient. -/
theorem fit_update_rule (x : List (List ℚ)) (y : List ℚ) (k : Nat) (m : LinearModel)
    (hx : x ≠ []) (hrows : ∀ row ∈ x, row.length = (x.headD []).length)
    (hy : y.length = x.length) (hc : m.coefficients.length = (x.headD []).length) :
    (fit_loop x y (1 / 100) (1 / 1000000) (k + 1) m =
      if ∀ g ∈ _gradient_mse x (m._predict x) y, |g| < 1 / 1000000 then Except.ok m
      else fit_loop x y (1 / 100) (1 / 1000000) k
        (fit_step (1 / 100) (_gradient_mse x (m._predict x) y) m))
    ∧ ∀ j < (x.headD []).length,
        (fit_step (1 / 100) (_gradient_mse x (m._predict x) y) m).coefficients.getD j 0
          = m.coefficients.getD j 0
            - 1 / 100 * (2 / (x.length : ℚ)
                * ∑ i ∈ Finset.range x.length,
                    ((m._predict x).getD i 0 - y.getD i 0) * ((x.getD i []).getD j 0)) := by
  constructor
  · exact fit_loop_succ x y (1 / 100) (1 / 1000000) k m hx hrows hy hc
  · intro j hj
    have h1 : j < m.coefficients.length := by omega
    have h2 : j < (_gradient_mse x (m._predict x) y).length := by
      rw [_gradient_mse_length]; omega
    show ((m.coefficients.zip (_gradient_mse x (m._predict x) y)).map
      (fun p => p.1 - 1 / 100 * p.2)).getD j 0 = _
    rw [getD_zip_map_sub _ _ _ _ h1 h2, _gradient_mse_getD x _ y hrows j hj]

/-- Witness for C1 at `x = [[1]]`, `y = [0]`, `m = ⟨0, [0]⟩`, `k = 0`. -/
theorem fit_update_rule_witness :
    (([[1]] : List (List ℚ)) ≠ []
      ∧ (∀ row ∈ ([[1]] : List (List ℚ)), row.length = (([[1]] : List (List ℚ)).headD []).length)
      ∧ ([0] : List ℚ).length = ([[1]] : List (List ℚ)).length
      ∧ (⟨0, [0]⟩ : LinearModel).coefficients.length = (([[1]] : List (List ℚ)).headD []).length)
    ∧ ((fit_loop [[1]] [0] (1 / 100) (1 / 1000000) (0 + 1) ⟨0, [0]⟩ =
        if ∀ g ∈ _gradient_mse [[1]] ((⟨0, [0]⟩ : LinearModel)._predict [[1]]) [0],
            |g| < 1 / 1000000
        then Except.ok ⟨0, [0]⟩
        else fit_loop [[1]] [0] (1 / 100) (1 / 1000000) 0
          (fit_step (1 / 100)
            (_gradient_mse [[1]] ((⟨0, [0]⟩ : LinearModel)._predict [[1]]) [0]) ⟨0, [0]⟩))
      ∧ ∀ j < (([[1]] : List (List ℚ)).headD []).length,
          (fit_step (1 / 100)
              (_gradient_mse [[1]] ((⟨0, [0]⟩ : LinearModel)._predict [[1]]) [0])
              ⟨0, [0]⟩).coefficients.getD j 0
            = (⟨0, [0]⟩ : LinearModel).coefficients.getD j 0
              - 1 / 100 * (2 / (([[1]] : List (List ℚ)).length : ℚ)
                  * ∑ i ∈ Finset.range ([[1]] : List (List ℚ)).length,
                      (((⟨0, [0]⟩ : LinearModel)._predict [[1]]).getD i 0 - ([0] : List ℚ).getD i 0)
                        * ((([[1]] : List (List ℚ)).getD i []).getD j 0))) :=
  ⟨⟨by simp, by intro row hr; simp at hr; simp [hr], by simp, by simp⟩,
    fit_update_rule [[1]] [0] 0 ⟨0, [0]⟩ (by simp)
      (by intro row hr; simp at hr; simp [hr]) (by simp) (by simp)⟩

/-- Claim C2: for every valid input the training loop terminates (within the
iteration cap of 1000, which is the loop's fuel), no error or panic arises
inside the loop once validation has passed (`fit` returns `Except.ok`), and at
each iteration the loop returns early exactly when every element of the
computed gradient has absolute value strictly below `1/1000000`. -/
theorem fit_terminates (x : List (List ℚ)) (y : List ℚ) (m : LinearModel)
    (hx : x ≠ []) (hrows : ∀ row ∈ x, row.length = (x.headD []).length)
    (hy : y.length = x.length) :
    (∃ m2, m.fit x y = Except.ok m2)
    ∧ (∀ (k : Nat) (m2 : LinearModel), m2.coefficients.length = (x.headD []).length →
        fit_loop x y (1 / 100) (1 / 1000000) (k + 1) m2 =
          if ∀ g ∈ _gradient_mse x (m2._predict x) y, |g| < 1 / 1000000 then Except.ok m2
          else fit_loop x y (1 / 100) (1 / 1000000) k
            (fit_step (1 / 100) (_gradient_mse x (m2._predict x) y) m2)) := by
  constructor
  · obtain ⟨m2, h1, _⟩ := fit_ok m x y hx hy hrows
    exact ⟨m2, h1⟩
  · intro k m2 hc
    exact fit_loop_succ x y (1 / 100) (1 / 1000000) k m2 hx hrows hy hc

/-- Witness for C2 at `x = [[1]]`, `y = [0]`, `m = LinearModel.new`. -/
theorem fit_terminates_witness :
    (([[1]] : List (List ℚ)) ≠ []
      ∧ (∀ row ∈ ([[1]] : List (List ℚ)), row.length = (([[1]] : List (List ℚ)).headD []).length)
      ∧ ([0] : List ℚ).length = ([[1]] : List (List ℚ)).length)
    ∧ ((∃ m2, LinearModel.new.fit [[1]] [0] = Except.ok m2)
      ∧ (∀ (k : Nat) (m2 : LinearModel),
          m2.coefficients.length = (([[1]] : List (List ℚ)).headD []).length →
          fit_loop [[1]] [0] (1 / 100) (1 / 1000000) (k + 1) m2 =
            if ∀ g ∈ _gradient_mse [[1]] (m2._predict [[1]]) [0], |g| < 1 / 1000000
            then Except.ok m2
            else fit_loop [[1]] [0] (1 / 100) (1 / 1000000) k
              (fit_step (1 / 100) (_gradient_mse [[1]] (m2._predict [[1]]) [0]) m2))) :=
  ⟨⟨by simp, by intro row hr; simp at hr; simp [hr], by simp⟩,
    fit_terminates [[1]] [0] LinearModel.new (by simp)
      (by intro row hr; simp at hr; simp [hr]) (by simp)⟩

/-- Counterexample for C3: at the claim's example `predicted = [2,3,4]`,
`actual = [1,2,3]` (with the feature matrix `[[1],[1],[1]]` that the actual
three-argument `gradient_mse` requires), the result is `[2, 2]`, not
`[2/3, 2/3, 2/3]`. -/
theorem gradient_mse_not_per_sample :
    gradient_mse [[1], [1], [1]] [2, 3, 4] [1, 2, 3] = Except.ok [2, 2]
    ∧ ([2, 2] : List ℚ) ≠ [2 / 3, 2 / 3, 2 / 3] := by
  refine ⟨gradient_mse_eval_example, fun h => ?_⟩
  have hl := congrArg List.length h
  simp at hl

/-- Amended C3: `gradient_mse` takes the feature matrix `x` in addition to
`predicted` and `actual` and returns the parameter-space gradient: a vector of
length `feature_count + 1` whose entry `j < feature_count` is
`2/n * ∑ i, (predicted_i - actual_i) * x_ij` and whose final entry is the
intercept derivative `2/n * (∑ predicted - ∑ actual)`. -/
theorem gradient_mse_parameter_space (x : List (List ℚ)) (y_hat y : List ℚ)
    (hrows : ∀ row ∈ x, row.length = (x.headD []).length) :
    (_gradient_mse x y_hat y).length = (x.headD []).length + 1
    ∧ (∀ j < (x.headD []).length,
        (_gradient_mse x y_hat y).getD j 0
          = 2 / (x.length : ℚ) * ∑ i ∈ Finset.range x.length,
              (y_hat.getD i 0 - y.getD i 0) * ((x.getD i []).getD j 0))
    ∧ (_gradient_mse x y_hat y).getD (x.headD []).length 0
        = 2 / (x.length : ℚ) * (y_hat.sum - y.sum) :=
  ⟨_gradient_mse_length x y_hat y,
    fun j hj => _gradient_mse_getD x y_hat y hrows j hj,
    _gradient_mse_last x y_hat y⟩

/-- Witness for amended C3 at `x = [[1],[1],[1]]`, `predicted = [2,3,4]`,
`actual = [1,2,3]`. -/
theorem gradient_mse_parameter_space_witness :
    (∀ row ∈ ([[1], [1], [1]] : List (List ℚ)),
        row.length = (([[1], [1], [1]] : List (List ℚ)).headD []).length)
    ∧ ((_gradient_mse [[1], [1], [1]] [2, 3, 4] [1, 2, 3]).length
          = (([[1], [1], [1]] : List (List ℚ)).headD []).length + 1
      ∧ (∀ j < (([[1], [1], [1]] : List (List ℚ)).headD []).length,
          (_gradient_mse [[1], [1], [1]] [2, 3, 4] [1, 2, 3]).getD j 0
            = 2 / (([[1], [1], [1]] : List (List ℚ)).length : ℚ)
              * ∑ i ∈ Finset.range ([[1], [1], [1]] : List (List ℚ)).length,
                  (([2, 3, 4] : List ℚ).getD i 0 - ([1, 2, 3] : List ℚ).getD i 0)
                    * ((([[1], [1], [1]] : List (List ℚ)).getD i []).getD j 0))
      ∧ (_gradient_mse [[1], [1], [1]] [2, 3, 4] [1, 2, 3]).getD
            (([[1], [1], [1]] : List (List ℚ)).headD []).length 0
          = 2 / (([[1], [1], [1]] : List (List ℚ)).length : ℚ)
            * (([2, 3, 4] : List ℚ).sum - ([1, 2, 3] : List ℚ).sum)) :=
  ⟨by intro row hr; simp at hr; simp [hr],
    gradient_mse_parameter_space [[1], [1], [1]] [2, 3, 4] [1, 2, 3]
      (by intro row hr; simp at hr; simp [hr])⟩

/-- Counterexample for C4: for `x = [[1,2]]`, `predicted = [5]`, `actual = [3]`
the call succeeds with `[4, 8, 4]`, whose length 3 differs from the input
length 1. -/
theorem gradient_mse_length_counterexample :
    gradient_mse [[1, 2]] [5] [3] = Except.ok [4, 8, 4]
    ∧ ([4, 8, 4] : List ℚ).length ≠ ([5] : List ℚ).length :=
  ⟨gradient_mse_eval_wide, by simp⟩

/-- Amended C4: the vector returned by `gradient_mse` always has length equal
to the feature count (the first row's length) plus one, not the length of the
input vectors. -/
theorem gradient_mse_result_length (x : List (List ℚ)) (y_hat y : List ℚ) :
    (_gradient_mse x y_hat y).length = (x.headD []).length + 1
    ∧ ∀ g, gradient_mse x y_hat y = Except.ok g → g.length = (x.headD []).length + 1 := by
  refine ⟨_gradient_mse_length x y_hat y, fun g hg => ?_⟩
  rw [gradient_mse_ok_inv x y_hat y g hg]
  exact _gradient_mse_length x y_hat y

/-- Witness for amended C4 at `x = [[1,2]]`, `predicted = [5]`, `actual = [3]`. -/
theorem gradient_mse_result_length_witness :
    gradient_mse [[1, 2]] [5] [3] = Except.ok [4, 8, 4]
    ∧ ([4, 8, 4] : List ℚ).length = (([[1, 2]] : List (List ℚ)).headD []).length + 1 :=
  ⟨gradient_mse_eval_wide,
    (gradient_mse_result_length [[1, 2]] [5] [3]).2 [4, 8, 4] gradient_mse_eval_wide⟩

/-- Claim C5: `fit` never changes the model's `intercept` field, whether it
succeeds or returns an error: the state of `self` after the call (the first
component of `fit_mut`) has the same intercept as before. -/
theorem fit_never_changes_intercept (m : LinearModel) (x : List (List ℚ)) (y : List ℚ) :
    (m.fit_mut x y).1.intercept = m.intercept :=
  fit_mut_fst_intercept m x y

/-- Claim C6: after every successful call to `fit(x, y)` the model's
coefficient vector has length equal to the feature count of `x` (the length of
`x`'s first row). -/
theorem fit_coefficients_feature_count (m : LinearModel) (x : List (List ℚ)) (y : List ℚ)
    (m2 : LinearModel) (h : m.fit x y = .ok m2) :
    m2.coefficients.length = (x.headD []).length := by
  have hfit := fit_ok_inv m x y m2 h
  exact fit_loop_length x y (1 / 100) (1 / 1000000) 1000 _ m2 (by simp) hfit

/-- Witness for C6: fitting the zero model on `x = [[1]]`, `y = [0]` succeeds
and leaves one coefficient, matching the single feature. -/
theorem fit_coefficients_feature_count_witness :
    LinearModel.new.fit [[1]] [0] = .ok { intercept := 0, coefficients := [0] }
    ∧ ({ intercept := 0, coefficients := [0] } : LinearModel).coefficients.length
        = (([[1]] : List (List ℚ)).headD []).length :=
  ⟨fit_eval_example,
    fit_coefficients_feature_count LinearModel.new [[1]] [0] _ fit_eval_example⟩

/-- Claim C7: calling `fit` or `predict` with an empty feature matrix yields
`EmptyVector`; mismatched lengths (matrix vs target, ragged rows, or row
length differing from the coefficient count) yield `DimensionMismatch`; and
whenever `fit` returns an error the model is left unchanged (no partial
work). -/
theorem validation_errors :
    (∀ (m : LinearModel) (y : List ℚ), m.fit_mut [] y = (m, .error Error.EmptyVector))
    ∧ (∀ m : LinearModel, m.predict [] = .error Error.EmptyVector)
    ∧ (∀ (m : LinearModel) (x : List (List ℚ)) (y : List ℚ), x ≠ [] → y ≠ [] →
        x.length ≠ y.length → m.fit_mut x y = (m, .error Error.DimensionMismatch))
    ∧ (∀ (m : LinearModel) (x : List (List ℚ)) (y : List ℚ), x ≠ [] → y ≠ [] →
        x.length = y.length → (∃ row ∈ x.drop 1, row.length ≠ (x.headD []).length) →
        m.fit_mut x y = (m, .error Error.DimensionMismatch))
    ∧ (∀ (m : LinearModel) (x : List (List ℚ)), x ≠ [] →
        (∃ row ∈ x, row.length ≠ m.coefficients.length) →
        m.predict x = .error Error.DimensionMismatch)
    ∧ (∀ (m : LinearModel) (x : List (List ℚ)) (y : List ℚ) (e : Error),
        (m.fit_mut x y).2 = .error e → (m.fit_mut x y).1 = m) :=
  ⟨fit_mut_empty, predict_empty, fit_mut_len_mismatch, fit_mut_ragged,
    predict_row_mismatch, fit_mut_err_frame⟩

/-- Witness for C7: each error case at a concrete input. -/
theorem validation_errors_witness :
    LinearModel.new.fit_mut [] [1] = (LinearModel.new, .error Error.EmptyVector)
    ∧ LinearModel.new.predict [] = .error Error.EmptyVector
    ∧ LinearModel.new.fit_mut [[1], [2]] [1] = (LinearModel.new, .error Error.DimensionMismatch)
    ∧ LinearModel.new.fit_mut [[1], [2, 3]] [1, 2]
        = (LinearModel.new, .error Error.DimensionMismatch)
    ∧ LinearModel.new.predict [[1]] = .error Error.DimensionMismatch
    ∧ (LinearModel.new.fit_mut [] [1]).1 = LinearModel.new :=
  ⟨validation_errors.1 LinearModel.new [1],
    validation_errors.2.1 LinearModel.new,
    validation_errors.2.2.1 LinearModel.new [[1], [2]] [1] (by simp) (by simp) (by simp),
    validation_errors.2.2.2.1 LinearModel.new [[1], [2, 3]] [1, 2] (by simp) (by simp)
      (by simp) ⟨[2, 3], by simp, by simp⟩,
    validation_errors.2.2.2.2.1 LinearModel.new [[1]] (by simp)
      ⟨[1], by simp, by simp [LinearModel.new]⟩,
    validation_errors.2.2.2.2.2 LinearModel.new [] [1] Error.EmptyVector rfl⟩

/-- Claim C8: whenever `mean_squared_error` succeeds, the returned value is
nonnegative. -/
theorem mean_squared_error_nonneg (y_hat y : List ℚ) (v : ℚ)
    (h : mean_squared_error y_hat y = .ok v) : 0 ≤ v := by
  rw [mean_squared_error_ok_inv y_hat y v h]
  exact mse_core_nonneg y_hat y

/-- Witness for C8 at `predicted = [2,3,4]`, `actual = [1,2,3]` (MSE 1). -/
theorem mean_squared_error_nonneg_witness :
    mean_squared_error [2, 3, 4] [1, 2, 3] = .ok 1 ∧ (0 : ℚ) ≤ 1 :=
  ⟨mse_eval_example, mean_squared_error_nonneg [2, 3, 4] [1, 2, 3] 1 mse_eval_example⟩

/-- Claim C9: `mean_squared_error` is symmetric — for non-empty equal-length
vectors both argument orders succeed and return the same value. -/
theorem mean_squared_error_symm (a b : List ℚ) (h1 : a ≠ []) (h2 : b ≠ [])
    (h3 : a.length = b.length) :
    ∃ v, mean_squared_error a b = .ok v ∧ mean_squared_error b a = .ok v := by
  refine ⟨_mean_squared_error a b, mean_squared_error_ok a b h1 h2 h3, ?_⟩
  rw [mean_squared_error_ok b a h2 h1 h3.symm, mse_core_comm b a h3.symm]

/-- Witness for C9 at `a = [1]`, `b = [2]`. -/
theorem mean_squared_error_symm_witness :
    ([1] : List ℚ) ≠ [] ∧ ([2] : List ℚ) ≠ []
    ∧ ([1] : List ℚ).length = ([2] : List ℚ).length
    ∧ ∃ v, mean_squared_error [1] [2] = .ok v ∧ mean_squared_error [2] [1] = .ok v :=
  ⟨by simp, by simp, rfl, mean_squared_error_symm [1] [2] (by simp) (by simp) rfl⟩

/-- Claim C10: when an input is both empty and of mismatched length, the
`EmptyVector` error takes precedence over `DimensionMismatch`: the length
check by itself would report `DimensionMismatch` (first conjunct), yet
`mean_squared_error` with an empty first argument and `fit` with an empty
matrix both report `EmptyVector`, because each public entry point runs its
non-emptiness checks before its length checks. -/
theorem empty_check_precedes_length_check (m : LinearModel) (y : List ℚ) (hy : y ≠ []) :
    validate_same_length ([] : List ℚ) y = .error Error.DimensionMismatch
    ∧ mean_squared_error [] y = .error Error.EmptyVector
    ∧ m.fit_mut [] y = (m, .error Error.EmptyVector)
    ∧ m.fit [] y = .error Error.EmptyVector :=
  ⟨validate_same_length_err _ _ (by simpa using (List.length_pos.mpr hy).ne),
    rfl, rfl, rfl⟩

/-- Witness for C10 at `y = [1]`, `m = LinearModel.new`. -/
theorem empty_check_precedes_length_check_witness :
    ([1] : List ℚ) ≠ []
    ∧ (validate_same_length ([] : List ℚ) [1] = .error Error.DimensionMismatch
      ∧ mean_squared_error [] [1] = .error Error.EmptyVector
      ∧ LinearModel.new.fit_mut [] [1] = (LinearModel.new, .error Error.EmptyVector)
      ∧ LinearModel.new.fit [] [1] = .error Error.EmptyVector) :=
  ⟨by simp, empty_check_precedes_length_check LinearModel.new [1] (by simp)⟩

end ClearML
